import Mathlib

/-!
Verification of the flag-resolution logic of runtime/mercury_conf_param.h
(the Mercury runtime configuration header).

The header is a sequence of preprocessor directives over a global macro
namespace.  We embed it shallowly: a flag store is a map from flag names to
a boolean (defined / not defined), and the directive sequence becomes an
ordered list of rules interpreted by a single-pass, fail-fast evaluator:

  - a fatal rule models a conditional error directive: if its guard holds
    on the current store, resolution aborts with a structured error;
  - an impose rule models conditional define directives: if its guard holds,
    the listed flags become defined;
  - a retract rule models conditional undef directives: if its guard holds,
    the listed flags become undefined.

Each rule in mercuryRules carries a comment giving the source lines it
transcribes; the list is in exact source order.  Guards are boolean
combinations of "flag is defined" / "flag is not defined", exactly the
forms used by the directives of the header.
-/

namespace Mercury

/-- The flags (macros) that participate in directives of the header.
Names follow the source macro names with the MR prefix dropped and
camel-cased; the compiler- and OS-supplied facts keep descriptive names
(gccPic for the lowercase pic symbol, gccPicUpper for the uppercase one,
targetWin32 for the WIN32 target fact, mscVer for the MSVC fact,
apple and mach for the Mac OS X facts). -/
inductive Flag where
  | stackTrace
  | execTrace
  | deepProfiling
  | highlevelCode
  | lowlevelDebug
  | debugDdBackEnd
  | debugGotos
  | debugLabelNames
  | lowlevelAddrDebug
  | debugLvalRep
  | debugAgcAll
  | debugAgcScheduling
  | debugAgcCollection
  | debugAgcForwarding
  | debugAgcSavedHps
  | debugAgcPrintVars
  | debugAgcSmallHeap
  | recordTermSizes
  | threadSafe
  | traceHistogram
  | typeCtorStats
  | tableStatistics
  | stackFrameStats
  | useMinimalModelStackCopy
  | useMinimalModelOwnStacks
  | execTraceInfoInContext
  | minimalModelDebug
  | boxedFloat
  | gccPic
  | gccPicUpper
  | pic
  | picReg
  | cygwin
  | targetWin32
  | checkForOverflow
  | deepProfilingPerfTest
  | deepProfilingPortCounts
  | deepProfilingTiming
  | deepProfilingCallSeq
  | deepProfilingMemory
  | disableCheckDuEq
  | checkDuEq
  | boehmGc
  | mpsGc
  | conservativeGc
  | nativeGc
  | mightReclaimHpOnFailure
  | reclaimHpOnFailure
  | staticCodeAddresses
  | useGccNonlocalGotos
  | useAsmLabels
  | llParallelConj
  | deepProfilingLowlevelDebug
  | tableDebug
  | debugRetry
  | insertLabels
  | bytecodeCallable
  | insertEntryLabelNames
  | mprofProfileCalls
  | insertInternalLabelNames
  | needEntryLabelArray
  | needEntryLabelInfo
  | needInitializationAtStart
  | mprofProfileTime
  | mayNeedInitialization
  | haveSiginfo
  | pcAccess
  | haveMprotect
  | canGetPcAtSignal
  | checkOverflowViaMprotect
  | protectPage
  | mscVer
  | msvcStructuredExceptions
  | win32
  | win32GetSystemInfo
  | win32VirtualAlloc
  | win32GetProcessTimes
  | brokenStIno
  | apple
  | mach
  | macOsx
deriving DecidableEq, Repr

/-- A flag store: which flags are currently defined.  The initial store is
the union of the caller-supplied assignment and the platform facts; the
evaluator mutates it by rule application. -/
def Store : Type := Flag → Bool

/-- A store built from a list of the flags that are defined (the shape of
a caller-supplied initial assignment together with platform facts). -/
def ofList (fs : List Flag) : Store := fun g => fs.contains g

/-- The empty initial assignment with an empty platform set. -/
def emptyStore : Store := ofList []

/-- The structured fatal errors of the resolution engine. -/
inductive ConfigError where
  | reservedFlagSetExternally (name : String)
  | incompatibleCombination (names : List String)
  | missingPrerequisite (name : String) (requiredFlag : String)
deriving DecidableEq, Repr

/-- Guards: the boolean conditions of the conditional directives, built
from definedness tests of single flags. -/
inductive Guard where
  | isSet (f : Flag)
  | notSet (f : Flag)
  | and (a b : Guard)
  | or (a b : Guard)

/-- Evaluate a guard against the current store. -/
def Guard.eval (s : Store) : Guard → Bool
  | .isSet f => s f
  | .notSet f => !(s f)
  | .and a b => a.eval s && b.eval s
  | .or a b => a.eval s || b.eval s

/-- A rule: one directive group of the header. -/
inductive Rule where
  | impose (g : Guard) (fs : List Flag)
  | retract (g : Guard) (fs : List Flag)
  | fatal (g : Guard) (e : ConfigError)

/-- Set every flag of the list to the given value. -/
def setFlags (v : Bool) (fs : List Flag) (s : Store) : Store :=
  fun g => if fs.contains g then v else s g

/-- Apply one rule to the store: impose and retract always continue,
fatal aborts when its guard holds. -/
def Rule.apply (s : Store) : Rule → Except ConfigError Store
  | .impose g fs => .ok (if g.eval s then setFlags true fs s else s)
  | .retract g fs => .ok (if g.eval s then setFlags false fs s else s)
  | .fatal g e => if g.eval s then .error e else .ok s

/-- The flags a rule can write. -/
def Rule.targets : Rule → List Flag
  | .impose _ fs => fs
  | .retract _ fs => fs
  | .fatal _ _ => []

/-- Whether a rule can write the given flag. -/
def Rule.touches (r : Rule) (f : Flag) : Bool := r.targets.contains f

/-- One-pass, fail-fast evaluation of a rule list in order. -/
def runRules (s : Store) : List Rule → Except ConfigError Store
  | [] => .ok s
  | r :: rs =>
    match r.apply s with
    | .error e => .error e
    | .ok t => runRules t rs

/-- Lines 342-347: the stack trace flag must not be supplied directly and
is implied by execution tracing or deep profiling. -/
def stackTraceRules : List Rule :=
  [ .fatal (.isSet .stackTrace) (.reservedFlagSetExternally "MR_STACK_TRACE"),
    .impose (.or (.isSet .execTrace) (.isSet .deepProfiling)) [.stackTrace] ]

/-- Lines 349-368: high level code generation conflicts with each of the
six low level debugging modes, checked in this order. -/
def highlevelDebugRules : List Rule :=
  [ .fatal (.and (.isSet .highlevelCode) (.isSet .lowlevelDebug))
      (.incompatibleCombination ["MR_HIGHLEVEL_CODE", "MR_LOWLEVEL_DEBUG"]),
    .fatal (.and (.isSet .highlevelCode) (.isSet .debugDdBackEnd))
      (.incompatibleCombination ["MR_HIGHLEVEL_CODE", "MR_DEBUG_DD_BACK_END"]),
    .fatal (.and (.isSet .highlevelCode) (.isSet .debugGotos))
      (.incompatibleCombination ["MR_HIGHLEVEL_CODE", "MR_DEBUG_GOTOS"]),
    .fatal (.and (.isSet .highlevelCode) (.isSet .debugLabelNames))
      (.incompatibleCombination ["MR_HIGHLEVEL_CODE", "MR_DEBUG_LABEL_NAMES"]),
    .fatal (.and (.isSet .highlevelCode) (.isSet .lowlevelAddrDebug))
      (.incompatibleCombination ["MR_HIGHLEVEL_CODE", "MR_LOWLEVEL_ADDR_DEBUG"]),
    .fatal (.and (.isSet .highlevelCode) (.isSet .debugLvalRep))
      (.incompatibleCombination ["MR_HIGHLEVEL_CODE", "MR_DEBUG_LVAL_REP"]) ]

/-- Lines 370-377: the aggregate accurate-gc debug flag implies the six
individual accurate-gc debug flags.  (The source tests the value of the
aggregate macro; supplying it on the command line defines it as 1, which
we model as definedness.) -/
def agcRules : List Rule :=
  [ .impose (.isSet .debugAgcAll)
      [.debugAgcScheduling, .debugAgcCollection, .debugAgcForwarding,
       .debugAgcSavedHps, .debugAgcPrintVars, .debugAgcSmallHeap] ]

/-- Lines 438-449: high level code generation conflicts with deep
profiling and with term size recording. -/
def highlevelProfRules : List Rule :=
  [ .fatal (.and (.isSet .highlevelCode) (.isSet .deepProfiling))
      (.incompatibleCombination ["MR_HIGHLEVEL_CODE", "MR_DEEP_PROFILING"]),
    .fatal (.and (.isSet .highlevelCode) (.isSet .recordTermSizes))
      (.incompatibleCombination ["MR_HIGHLEVEL_CODE", "MR_RECORD_TERM_SIZES"]) ]

/-- Lines 490-504: thread safety conflicts with four statistics features. -/
def threadRules : List Rule :=
  [ .fatal (.and (.isSet .threadSafe) (.isSet .traceHistogram))
      (.incompatibleCombination ["MR_THREAD_SAFE", "MR_TRACE_HISTOGRAM"]),
    .fatal (.and (.isSet .threadSafe) (.isSet .typeCtorStats))
      (.incompatibleCombination ["MR_THREAD_SAFE", "MR_TYPE_CTOR_STATS"]),
    .fatal (.and (.isSet .threadSafe) (.isSet .tableStatistics))
      (.incompatibleCombination ["MR_THREAD_SAFE", "MR_TABLE_STATISTICS"]),
    .fatal (.and (.isSet .threadSafe) (.isSet .stackFrameStats))
      (.incompatibleCombination ["MR_THREAD_SAFE", "MR_STACK_FRAME_STATS"]) ]

/-- Lines 514-535: both minimal model tabling variants require the
conservative collector category; own stack tabling implies per-context
trace info; minimal model debugging implies table statistics.
Note: the error message at line 515 names MR_USE_MINIMAL_MODEL_OWN_STACKS
even though the guard of that directive tests the stack copy variant; the
transcription keeps the message of the source. -/
def minimalModelRules : List Rule :=
  [ .fatal (.and (.isSet .useMinimalModelStackCopy) (.notSet .conservativeGc))
      (.missingPrerequisite "MR_USE_MINIMAL_MODEL_OWN_STACKS" "MR_CONSERVATIVE_GC"),
    .fatal (.and (.isSet .useMinimalModelOwnStacks) (.notSet .conservativeGc))
      (.missingPrerequisite "MR_USE_MINIMAL_MODEL_OWN_STACKS" "MR_CONSERVATIVE_GC"),
    .impose (.isSet .useMinimalModelOwnStacks) [.execTraceInfoInContext],
    .impose (.isSet .minimalModelDebug) [.tableStatistics] ]

/-- Lines 548-579: boxed floats from high level code; the pic flag from
the compiler facts; the pic register flag from pic, retracted again on
the Windows family. -/
def impliedPicRules : List Rule :=
  [ .impose (.isSet .highlevelCode) [.boxedFloat],
    .impose (.or (.isSet .gccPic) (.isSet .gccPicUpper)) [.pic],
    .impose (.isSet .pic) [.picReg],
    .retract (.or (.isSet .cygwin) (.isSet .targetWin32)) [.picReg] ]

/-- Lines 582-618: the low level debug bundle, the deep profiling
measurement bundle (with the perf test override and the undefs of the
else branch) and the check-by-default flag guarded by its disable flag. -/
def impliedMiscRules : List Rule :=
  [ .impose (.isSet .lowlevelDebug) [.debugGotos, .checkForOverflow],
    .impose (.isSet .deepProfiling) [.deepProfilingPortCounts],
    .impose (.and (.isSet .deepProfiling) (.notSet .deepProfilingPerfTest))
      [.deepProfilingTiming, .deepProfilingCallSeq, .deepProfilingMemory],
    .retract (.notSet .deepProfiling)
      [.deepProfilingPortCounts, .deepProfilingTiming,
       .deepProfilingCallSeq, .deepProfilingMemory],
    .impose (.notSet .disableCheckDuEq) [.checkDuEq] ]

/-- Lines 548-618 in order: the pic group then the misc group. -/
def impliedOptionRules : List Rule := impliedPicRules ++ impliedMiscRules

/-- Lines 640-646: a named conservative collector forces the category
flag; the category alone defaults to the Boehm collector. -/
def gcRules : List Rule :=
  [ .impose (.and (.or (.isSet .boehmGc) (.isSet .mpsGc)) (.notSet .conservativeGc))
      [.conservativeGc],
    .impose (.and (.and (.notSet .boehmGc) (.notSet .mpsGc)) (.isSet .conservativeGc))
      [.boehmGc] ]

/-- Lines 657-699: heap reclamation on failure: the capability is derived
from the absence of both collector categories, the opt-in follows the
capability, and three sanity checks reject inconsistent combinations. -/
def reclaimRules : List Rule :=
  [ .impose (.and (.notSet .conservativeGc) (.notSet .nativeGc))
      [.mightReclaimHpOnFailure],
    .impose (.isSet .mightReclaimHpOnFailure) [.reclaimHpOnFailure],
    .fatal (.and (.isSet .reclaimHpOnFailure) (.notSet .mightReclaimHpOnFailure))
      (.incompatibleCombination
        ["MR_RECLAIM_HP_ON_FAILURE", "MR_MIGHT_RECLAIM_HP_ON_FAILURE"]),
    .fatal (.and (.isSet .reclaimHpOnFailure) (.isSet .conservativeGc))
      (.incompatibleCombination ["MR_RECLAIM_HP_ON_FAILURE", "MR_CONSERVATIVE_GC"]),
    .fatal (.and (.isSet .reclaimHpOnFailure) (.isSet .nativeGc))
      (.incompatibleCombination ["MR_RECLAIM_HP_ON_FAILURE", "MR_NATIVE_GC"]) ]

/-- Lines 706-711: static code addresses must not be supplied directly;
they are available unless using gcc nonlocal gotos without asm labels. -/
def staticCodeRules : List Rule :=
  [ .fatal (.isSet .staticCodeAddresses)
      (.reservedFlagSetExternally "MR_STATIC_CODE_ADDRESSES"),
    .impose (.or (.notSet .useGccNonlocalGotos) (.isSet .useAsmLabels))
      [.staticCodeAddresses] ]

/-- Lines 717-719: low level parallel conjunction support. -/
def parallelRules : List Rule :=
  [ .impose (.and (.notSet .highlevelCode) (.isSet .threadSafe)) [.llParallelConj] ]

/-- Lines 729-813: label name and label table infrastructure flags, each
an implication whose guard is a disjunction over previously resolved
flags, with the reserved-flag checks of the source kept in place. -/
def labelRules : List Rule :=
  [ .impose (.or (.isSet .deepProfilingLowlevelDebug)
        (.or (.isSet .tableDebug) (.isSet .debugRetry)))
      [.debugLabelNames],
    .fatal (.isSet .insertLabels) (.reservedFlagSetExternally "MR_INSERT_LABELS"),
    .impose (.or (.isSet .stackTrace)
        (.or (.isSet .nativeGc)
          (.or (.isSet .debugGotos)
            (.or (.isSet .bytecodeCallable) (.isSet .debugLabelNames)))))
      [.insertLabels],
    .fatal (.isSet .insertEntryLabelNames)
      (.reservedFlagSetExternally "MR_INSERT_ENTRY_LABEL_NAMES"),
    .impose (.or (.isSet .mprofProfileCalls)
        (.or (.isSet .debugGotos)
          (.or (.isSet .debugAgcScheduling) (.isSet .debugLabelNames))))
      [.insertEntryLabelNames],
    .fatal (.isSet .insertInternalLabelNames)
      (.reservedFlagSetExternally "MR_INSERT_INTERNAL_LABEL_NAMES"),
    .impose (.or (.isSet .debugGotos)
        (.or (.isSet .debugAgcScheduling) (.isSet .debugLabelNames)))
      [.insertInternalLabelNames],
    .impose (.or (.isSet .nativeGc)
        (.or (.isSet .debugGotos) (.isSet .insertEntryLabelNames)))
      [.needEntryLabelArray],
    .impose (.or (.isSet .needEntryLabelArray) (.isSet .mprofProfileCalls))
      [.needEntryLabelInfo] ]

/-- Lines 825-847: initialization flags, reserved and then derived. -/
def initRules : List Rule :=
  [ .fatal (.isSet .needInitializationAtStart)
      (.reservedFlagSetExternally "MR_NEED_INITIALIZATION_AT_START"),
    .impose (.or (.notSet .staticCodeAddresses)
        (.or (.isSet .mprofProfileCalls)
          (.or (.isSet .mprofProfileTime) (.isSet .debugLabelNames))))
      [.needInitializationAtStart],
    .fatal (.isSet .mayNeedInitialization)
      (.reservedFlagSetExternally "MR_MAY_NEED_INITIALIZATION"),
    .impose (.or (.isSet .needInitializationAtStart) (.isSet .insertLabels))
      [.mayNeedInitialization] ]

/-- Lines 855-916: platform capability bundles, purely additive. -/
def platformRules : List Rule :=
  [ .impose (.and (.isSet .haveSiginfo) (.isSet .pcAccess)) [.canGetPcAtSignal],
    .impose (.or (.and (.isSet .haveMprotect) (.isSet .haveSiginfo))
        (.isSet .targetWin32))
      [.checkOverflowViaMprotect],
    .impose (.or (.isSet .haveMprotect) (.isSet .targetWin32)) [.protectPage],
    .impose (.isSet .mscVer) [.msvcStructuredExceptions],
    .impose (.isSet .targetWin32)
      [.win32, .win32GetSystemInfo, .win32VirtualAlloc,
       .win32GetProcessTimes, .brokenStIno],
    .impose (.and (.isSet .apple) (.isSet .mach)) [.macOsx] ]

/-- The rules up to and including the collector normalization of lines
640-646, in source order. -/
def rulesThroughGc : List Rule :=
  stackTraceRules ++ (highlevelDebugRules ++ (agcRules ++ (highlevelProfRules ++
    (threadRules ++ (minimalModelRules ++ (impliedOptionRules ++ gcRules))))))

/-- The rules after the collector normalization, in source order. -/
def rulesAfterGc : List Rule :=
  reclaimRules ++ (staticCodeRules ++ (parallelRules ++ (labelRules ++
    (initRules ++ platformRules))))

/-- The full rule list of the header, in source order. -/
def mercuryRules : List Rule := rulesThroughGc ++ rulesAfterGc

/-- Resolution: one pass over the rule list, starting from the initial
store (caller assignment united with platform facts). -/
def resolve (s : Store) : Except ConfigError Store := runRules s mercuryRules

/-- Feed the result of resolution back in as the initial assignment
(every resolved flag treated as explicitly requested, same platform
facts) and resolve again. -/
def reResolve (s : Store) : Except ConfigError Store :=
  match resolve s with
  | .error e => .error e
  | .ok r => resolve r

/-!
Generic lemmas about the evaluator: unfolding equations, decomposition of
a run over an appended list, and preservation of flags that a rule list
never writes.
-/

theorem runRules_nil (s : Store) : runRules s [] = .ok s := rfl

theorem runRules_cons (s : Store) (r : Rule) (rs : List Rule) :
    runRules s (r :: rs) =
      match r.apply s with
      | .error e => .error e
      | .ok t => runRules t rs := rfl

theorem runRules_append (s : Store) (a b : List Rule) :
    runRules s (a ++ b) =
      match runRules s a with
      | .error e => .error e
      | .ok t => runRules t b := by
  induction a generalizing s with
  | nil => rfl
  | cons r rs ih =>
    rw [List.cons_append, runRules_cons, runRules_cons]
    cases h : r.apply s with
    | error e => rfl
    | ok t => exact ih t

theorem runRules_append_ok {s r : Store} {a b : List Rule}
    (h : runRules s (a ++ b) = .ok r) :
    ∃ t, runRules s a = .ok t ∧ runRules t b = .ok r := by
  rw [runRules_append] at h
  cases hx : runRules s a with
  | error e => rw [hx] at h; exact absurd h (by simp)
  | ok t => rw [hx] at h; exact ⟨t, rfl, h⟩

theorem runRules_append_error_left {s : Store} {a b : List Rule} {e : ConfigError}
    (h : runRules s a = .error e) : runRules s (a ++ b) = .error e := by
  rw [runRules_append, h]

theorem runRules_append_error_right {s t : Store} {a b : List Rule} {e : ConfigError}
    (h1 : runRules s a = .ok t) (h2 : runRules t b = .error e) :
    runRules s (a ++ b) = .error e := by
  rw [runRules_append, h1]
  exact h2

theorem setFlags_contains {v : Bool} {fs : List Flag} {s : Store} {f : Flag}
    (h : fs.contains f = true) : setFlags v fs s f = v := by
  unfold setFlags
  rw [h]
  simp

theorem setFlags_not_contains {v : Bool} {fs : List Flag} {s : Store} {f : Flag}
    (h : fs.contains f = false) : setFlags v fs s f = s f := by
  unfold setFlags
  rw [h]
  simp

theorem fatal_apply_true {g : Guard} {e : ConfigError} {s : Store}
    (h : g.eval s = true) : (Rule.fatal g e).apply s = .error e := by
  simp [Rule.apply, h]

theorem fatal_apply_false {g : Guard} {e : ConfigError} {s : Store}
    (h : g.eval s = false) : (Rule.fatal g e).apply s = .ok s := by
  simp [Rule.apply, h]

theorem impose_apply (g : Guard) (fs : List Flag) (s : Store) :
    (Rule.impose g fs).apply s = .ok (if g.eval s then setFlags true fs s else s) := rfl

theorem retract_apply (g : Guard) (fs : List Flag) (s : Store) :
    (Rule.retract g fs).apply s = .ok (if g.eval s then setFlags false fs s else s) := rfl

theorem apply_ok_not_touched {r : Rule} {s t : Store} {f : Flag}
    (hf : r.touches f = false) (h : r.apply s = .ok t) : t f = s f := by
  cases r with
  | impose g fs =>
    rw [impose_apply, Except.ok.injEq] at h
    subst h
    split
    · exact setFlags_not_contains hf
    · rfl
  | retract g fs =>
    rw [retract_apply, Except.ok.injEq] at h
    subst h
    split
    · exact setFlags_not_contains hf
    · rfl
  | fatal g e =>
    cases hg : g.eval s with
    | true => rw [fatal_apply_true hg] at h; cases h
    | false => rw [fatal_apply_false hg, Except.ok.injEq] at h; rw [← h]

theorem runRules_ok_not_touched {rs : List Rule} {s t : Store} {f : Flag}
    (hall : rs.all (fun r => !r.touches f) = true)
    (h : runRules s rs = .ok t) : t f = s f := by
  induction rs generalizing s with
  | nil => rw [runRules_nil, Except.ok.injEq] at h; rw [← h]
  | cons r rest ih =>
    rw [List.all_cons, Bool.and_eq_true, Bool.not_eq_true'] at hall
    rw [runRules_cons] at h
    cases ha : r.apply s with
    | error e => rw [ha] at h; cases h
    | ok u =>
      rw [ha] at h
      rw [ih hall.2 h, apply_ok_not_touched hall.1 ha]

theorem runRules_cons_ok {r : Rule} {rs : List Rule} {s t : Store}
    (h : runRules s (r :: rs) = .ok t) :
    ∃ u, r.apply s = .ok u ∧ runRules u rs = .ok t := by
  rw [runRules_cons] at h
  cases ha : r.apply s with
  | error e => rw [ha] at h; cases h
  | ok u => rw [ha] at h; exact ⟨u, rfl, h⟩

theorem impose_ok_flag_value {g : Guard} {fs : List Flag} {s t : Store} {f : Flag}
    (hc : fs.contains f = true) (h : (Rule.impose g fs).apply s = .ok t) :
    t f = (s f || g.eval s) := by
  rw [impose_apply, Except.ok.injEq] at h
  rw [← h]
  cases hg : g.eval s with
  | true => rw [if_pos rfl, setFlags_contains hc]; simp
  | false => rw [if_neg (by simp)]; simp

theorem retract_ok_flag_value {g : Guard} {fs : List Flag} {s t : Store} {f : Flag}
    (hc : fs.contains f = true) (h : (Rule.retract g fs).apply s = .ok t) :
    t f = (!g.eval s && s f) := by
  rw [retract_apply, Except.ok.injEq] at h
  rw [← h]
  cases hg : g.eval s with
  | true => rw [if_pos rfl, setFlags_contains hc]; simp
  | false => rw [if_neg (by simp)]; simp

theorem fatal_apply_ok {g : Guard} {e : ConfigError} {s t : Store}
    (h : (Rule.fatal g e).apply s = .ok t) : g.eval s = false ∧ t = s := by
  cases hg : g.eval s with
  | false => rw [fatal_apply_false hg, Except.ok.injEq] at h; exact ⟨rfl, h.symm⟩
  | true => rw [fatal_apply_true hg] at h; cases h

theorem runRules_impose (g : Guard) (fs : List Flag) (s : Store) (rs : List Rule) :
    runRules s (.impose g fs :: rs) =
      runRules (if g.eval s then setFlags true fs s else s) rs := rfl

theorem runRules_retract (g : Guard) (fs : List Flag) (s : Store) (rs : List Rule) :
    runRules s (.retract g fs :: rs) =
      runRules (if g.eval s then setFlags false fs s else s) rs := rfl

theorem runRules_fatal_true {g : Guard} {e : ConfigError} {s : Store}
    {rs : List Rule} (h : g.eval s = true) :
    runRules s (.fatal g e :: rs) = .error e := by
  rw [runRules_cons, fatal_apply_true h]

theorem runRules_fatal_false {g : Guard} {e : ConfigError} {s : Store}
    {rs : List Rule} (h : g.eval s = false) :
    runRules s (.fatal g e :: rs) = runRules s rs := by
  rw [runRules_cons, fatal_apply_false h]

/-!
Reassociations of the rule list at the boundaries the proofs need.  Each
is definitional: both sides evaluate to the same list.
-/

theorem rules_split_mm :
    mercuryRules =
      (stackTraceRules ++ (highlevelDebugRules ++ (agcRules ++
        (highlevelProfRules ++ threadRules)))) ++
      (minimalModelRules ++ (impliedOptionRules ++ (gcRules ++ rulesAfterGc))) := rfl

theorem rules_split_implied :
    mercuryRules =
      (stackTraceRules ++ (highlevelDebugRules ++ (agcRules ++
        (highlevelProfRules ++ (threadRules ++ minimalModelRules))))) ++
      (impliedOptionRules ++ (gcRules ++ rulesAfterGc)) := rfl

theorem rules_split_st :
    mercuryRules =
      stackTraceRules ++ (highlevelDebugRules ++ (agcRules ++
        (highlevelProfRules ++ (threadRules ++ (minimalModelRules ++
          (impliedOptionRules ++ (gcRules ++ rulesAfterGc))))))) := rfl

theorem rules_split_pic :
    mercuryRules =
      (stackTraceRules ++ (highlevelDebugRules ++ (agcRules ++
        (highlevelProfRules ++ (threadRules ++ minimalModelRules))))) ++
      (impliedPicRules ++ (impliedMiscRules ++ (gcRules ++ rulesAfterGc))) := rfl

theorem rules_split_gc :
    mercuryRules =
      (stackTraceRules ++ (highlevelDebugRules ++ (agcRules ++
        (highlevelProfRules ++ (threadRules ++ (minimalModelRules ++
          impliedOptionRules)))))) ++
      (gcRules ++ rulesAfterGc) := rfl

theorem rules_split_reclaim :
    mercuryRules =
      rulesThroughGc ++
      (reclaimRules ++ (staticCodeRules ++ (parallelRules ++
        (labelRules ++ (initRules ++ platformRules))))) := rfl

theorem rules_split_static :
    mercuryRules =
      (rulesThroughGc ++ reclaimRules) ++
      (staticCodeRules ++ (parallelRules ++ (labelRules ++
        (initRules ++ platformRules)))) := rfl

theorem rules_split_init :
    mercuryRules =
      (rulesThroughGc ++ (reclaimRules ++ (staticCodeRules ++
        (parallelRules ++ labelRules)))) ++
      (initRules ++ platformRules) := rfl

/-!
The claims.
-/

/-- C9: for an initial assignment requesting only deep profiling (empty
platform set), resolution succeeds and the resolved configuration has
stack tracing, port counts, timing, call sequence and memory measurement
all derived true; if the performance test override is also requested, the
port counts flag is still derived but the timing, call sequence and
memory flags are absent. -/
theorem mercury_c9 :
    (∃ r, resolve (ofList [.deepProfiling]) = .ok r ∧
      r .stackTrace = true ∧ r .deepProfilingPortCounts = true ∧
      r .deepProfilingTiming = true ∧ r .deepProfilingCallSeq = true ∧
      r .deepProfilingMemory = true) ∧
    (∃ r, resolve (ofList [.deepProfiling, .deepProfilingPerfTest]) = .ok r ∧
      r .deepProfilingPortCounts = true ∧ r .deepProfilingTiming = false ∧
      r .deepProfilingCallSeq = false ∧ r .deepProfilingMemory = false) :=
  ⟨⟨_, rfl, rfl, rfl, rfl, rfl, rfl⟩, ⟨_, rfl, rfl, rfl, rfl, rfl⟩⟩

/-- C10: conflict rules observe only the store at their own position, so
the implication from minimal model debugging to table statistics (which
runs after the thread safety conflict check) creates the very pair that
the earlier conflict rule would have rejected: requesting thread safety
together with minimal model debugging succeeds with both thread safety
and table statistics resolved true, while requesting the pair directly
fails with an incompatible combination error. -/
theorem mercury_c10 :
    (∃ r, resolve (ofList [.threadSafe, .minimalModelDebug]) = .ok r ∧
      r .threadSafe = true ∧ r .tableStatistics = true) ∧
    resolve (ofList [.threadSafe, .tableStatistics]) =
      .error (.incompatibleCombination ["MR_THREAD_SAFE", "MR_TABLE_STATISTICS"]) :=
  ⟨⟨_, rfl, rfl, rfl⟩, rfl⟩

/-- C8: requesting the stack copy variant of minimal model tabling without
the conservative collector category fails with a missing prerequisite
error, but the error of the source (line 515) names the own stacks
variant rather than the requested stack copy variant: the guard of the
directive tests the stack copy flag while its message names the other
variant, so the error does not name the tabling flag that was requested. -/
theorem mercury_c8_codebug :
    resolve (ofList [.useMinimalModelStackCopy]) =
      .error (.missingPrerequisite "MR_USE_MINIMAL_MODEL_OWN_STACKS"
        "MR_CONSERVATIVE_GC") := rfl

/-- C1 counterexample: for the empty initial assignment and empty platform
set, resolution succeeds, but feeding the resolved configuration back in
as the initial assignment fails (the reservation rule for the static code
addresses flag fires on the fed back derived flag), so resolution is not
idempotent as claimed. -/
theorem mercury_c1_counterexample :
    (∃ r, resolve emptyStore = .ok r) ∧
    reResolve emptyStore =
      .error (.reservedFlagSetExternally "MR_STATIC_CODE_ADDRESSES") :=
  ⟨⟨_, rfl⟩, rfl⟩

/-- C2 counterexample: requesting the Boehm collector together with stack
copy minimal model tabling, without explicitly requesting the
conservative collector category, does not succeed: the prerequisite check
of lines 514-520 runs before the collector normalization of lines
640-646, so resolution fails with a missing prerequisite error instead of
resolving the category flag true. -/
theorem mercury_c2_counterexample :
    resolve (ofList [.boehmGc, .useMinimalModelStackCopy]) =
      .error (.missingPrerequisite "MR_USE_MINIMAL_MODEL_OWN_STACKS"
        "MR_CONSERVATIVE_GC") := rfl

/-- C5: stack trace support is resolved true exactly when execution
tracing or deep profiling is requested (so it is true when either or both
are requested and false when neither is), and any initial assignment that
sets the stack trace flag directly fails with a reserved flag error. -/
theorem mercury_c5 :
    (∀ s r, resolve s = .ok r →
      r .stackTrace = (s .execTrace || s .deepProfiling)) ∧
    (∀ s : Store, s .stackTrace = true →
      resolve s = .error (.reservedFlagSetExternally "MR_STACK_TRACE")) := by
  constructor
  · intro s r h
    unfold resolve mercuryRules rulesThroughGc at h
    obtain ⟨t, hpre, hpost⟩ := runRules_append_ok h
    obtain ⟨u, hst, hrest⟩ := runRules_append_ok hpre
    have h1 : t .stackTrace = u .stackTrace := runRules_ok_not_touched (by rfl) hrest
    have h2 : r .stackTrace = t .stackTrace := runRules_ok_not_touched (by rfl) hpost
    unfold stackTraceRules at hst
    cases hg : s .stackTrace with
    | true =>
      have hge : (Guard.isSet Flag.stackTrace).eval s = true := hg
      rw [runRules_fatal_true hge] at hst
      cases hst
    | false =>
      have hge : (Guard.isSet Flag.stackTrace).eval s = false := hg
      rw [runRules_fatal_false hge, runRules_impose, runRules_nil,
        Except.ok.injEq] at hst
      rw [h2, h1, ← hst]
      simp only [Guard.eval]
      cases hc : (s .execTrace || s .deepProfiling) with
      | true => simp [setFlags]
      | false => simpa using hg
  · intro s h
    have hge : (Guard.isSet Flag.stackTrace).eval s = true := h
    exact runRules_fatal_true hge

/-- C5 witness: requesting execution tracing alone resolves stack trace
support true, and requesting the stack trace flag directly is rejected. -/
theorem mercury_c5_witness :
    (∃ r, resolve (ofList [.execTrace]) = .ok r ∧ r .stackTrace = true) ∧
    resolve (ofList [.stackTrace]) =
      .error (.reservedFlagSetExternally "MR_STACK_TRACE") := by
  constructor
  · obtain ⟨r0, hr0⟩ : ∃ r0, resolve (ofList [.execTrace]) = .ok r0 := ⟨_, rfl⟩
    refine ⟨r0, hr0, ?_⟩
    rw [mercury_c5.1 (ofList [.execTrace]) r0 hr0]
    rfl
  · exact mercury_c5.2 (ofList [.stackTrace]) rfl

/-- On every successful resolution the collector category and Boehm flags
of the result are the normalization of the requested collector flags. -/
theorem resolve_ok_gc {s r : Store} (h : resolve s = .ok r) :
    r .conservativeGc = (s .conservativeGc || s .boehmGc || s .mpsGc) ∧
    r .boehmGc = (s .boehmGc || (!s .boehmGc && !s .mpsGc && s .conservativeGc)) := by
  unfold resolve at h
  rw [rules_split_gc] at h
  obtain ⟨t, hA, hB⟩ := runRules_append_ok h
  obtain ⟨w, hGc, hAfter⟩ := runRules_append_ok hB
  have hb : t .boehmGc = s .boehmGc := runRules_ok_not_touched (by rfl) hA
  have hm : t .mpsGc = s .mpsGc := runRules_ok_not_touched (by rfl) hA
  have hc : t .conservativeGc = s .conservativeGc := runRules_ok_not_touched (by rfl) hA
  have hrc : r .conservativeGc = w .conservativeGc :=
    runRules_ok_not_touched (by rfl) hAfter
  have hrb : r .boehmGc = w .boehmGc := runRules_ok_not_touched (by rfl) hAfter
  unfold gcRules at hGc
  rw [runRules_impose, runRules_impose, runRules_nil, Except.ok.injEq] at hGc
  rw [hrc, hrb, ← hGc, ← hb, ← hm, ← hc]
  cases h1 : t .boehmGc <;> cases h2 : t .mpsGc <;> cases h3 : t .conservativeGc <;>
    simp [Guard.eval, setFlags, h1, h2, h3]

/-- C7: requesting a named collector forces the category flag true on any
successful resolution; requesting the category alone defaults the Boehm
collector true; requesting both named collectors together succeeds (they
are not mutually exclusive) and forces the category flag. -/
theorem mercury_c7 :
    (∀ s r, resolve s = .ok r → (s .boehmGc || s .mpsGc) = true →
      r .conservativeGc = true) ∧
    (∀ s r, resolve s = .ok r → s .conservativeGc = true →
      s .boehmGc = false → s .mpsGc = false → r .boehmGc = true) ∧
    (∃ r, resolve (ofList [.boehmGc, .mpsGc]) = .ok r ∧
      r .conservativeGc = true ∧ r .boehmGc = true ∧ r .mpsGc = true) := by
  refine ⟨?_, ?_, ⟨_, rfl, rfl, rfl, rfl⟩⟩
  · intro s r h hbm
    rw [(resolve_ok_gc h).1]
    cases h1 : s .boehmGc <;> cases h2 : s .mpsGc <;>
      simp_all
  · intro s r h h1 h2 h3
    rw [(resolve_ok_gc h).2, h1, h2, h3]
    rfl

/-- C7 witness: the MPS collector alone forces the category flag, and the
category alone defaults to the Boehm collector. -/
theorem mercury_c7_witness :
    (∃ r, resolve (ofList [.mpsGc]) = .ok r ∧ r .conservativeGc = true) ∧
    (∃ r, resolve (ofList [.conservativeGc]) = .ok r ∧ r .boehmGc = true) := by
  constructor
  · obtain ⟨r0, h0⟩ : ∃ r0, resolve (ofList [.mpsGc]) = .ok r0 := ⟨_, rfl⟩
    exact ⟨r0, h0, mercury_c7.1 _ r0 h0 rfl⟩
  · obtain ⟨r1, h1⟩ : ∃ r1, resolve (ofList [.conservativeGc]) = .ok r1 := ⟨_, rfl⟩
    exact ⟨r1, h1, mercury_c7.2.1 _ r1 h1 rfl rfl rfl⟩

/-- C2 amended: the prerequisite check for minimal model tabling runs
before the collector normalization, so a successful resolution that
requested minimal model tabling must have had the category flag
explicitly in its initial assignment; requesting a named collector with
minimal model tabling but without the category flag always fails; and
with the category flag requested as well, resolution succeeds with the
category true. -/
theorem mercury_c2_amended :
    (∀ s r, resolve s = .ok r →
      (s .useMinimalModelStackCopy || s .useMinimalModelOwnStacks) = true →
      s .conservativeGc = true) ∧
    (∀ s : Store,
      (s .useMinimalModelStackCopy || s .useMinimalModelOwnStacks) = true →
      s .conservativeGc = false → (s .boehmGc || s .mpsGc) = true →
      ∃ e, resolve s = .error e) ∧
    (∃ r, resolve (ofList [.boehmGc, .conservativeGc, .useMinimalModelStackCopy]) =
        .ok r ∧ r .conservativeGc = true) := by
  have key : ∀ s r, resolve s = .ok r →
      (s .useMinimalModelStackCopy || s .useMinimalModelOwnStacks) = true →
      s .conservativeGc = true := by
    intro s r h hmm2
    unfold resolve at h
    rw [rules_split_mm] at h
    obtain ⟨t, hA, hB⟩ := runRules_append_ok h
    have e1 : t .useMinimalModelStackCopy = s .useMinimalModelStackCopy :=
      runRules_ok_not_touched (by rfl) hA
    have e2 : t .useMinimalModelOwnStacks = s .useMinimalModelOwnStacks :=
      runRules_ok_not_touched (by rfl) hA
    have e3 : t .conservativeGc = s .conservativeGc :=
      runRules_ok_not_touched (by rfl) hA
    obtain ⟨u, hMm, _⟩ := runRules_append_ok hB
    unfold minimalModelRules at hMm
    cases hg1 : (Guard.and (Guard.isSet Flag.useMinimalModelStackCopy)
        (Guard.notSet Flag.conservativeGc)).eval t with
    | true => rw [runRules_fatal_true hg1] at hMm; cases hMm
    | false =>
      rw [runRules_fatal_false hg1] at hMm
      cases hg2 : (Guard.and (Guard.isSet Flag.useMinimalModelOwnStacks)
          (Guard.notSet Flag.conservativeGc)).eval t with
      | true => rw [runRules_fatal_true hg2] at hMm; cases hMm
      | false =>
        simp only [Guard.eval] at hg1 hg2
        rw [e1, e3] at hg1
        rw [e2, e3] at hg2
        cases hsc : s .useMinimalModelStackCopy <;>
          cases hos : s .useMinimalModelOwnStacks <;>
          cases hcn : s .conservativeGc <;> simp_all
  refine ⟨key, ?_, ⟨_, rfl, rfl⟩⟩
  intro s hmm2 hcn _
  cases hx : resolve s with
  | error e => exact ⟨e, rfl⟩
  | ok r => exact absurd (key s r hx hmm2) (by simp [hcn])

/-- C2 witness: the Boehm collector with stack copy minimal model tabling
and no explicit category flag is rejected. -/
theorem mercury_c2_witness :
    ∃ e, resolve (ofList [.boehmGc, .useMinimalModelStackCopy]) = .error e :=
  mercury_c2_amended.2.1 (ofList [.boehmGc, .useMinimalModelStackCopy]) rfl rfl rfl

/-- C3: if the initial assignment explicitly requests heap reclamation on
failure and resolution reaches the heap reclamation rules with the
conservative collector category resolved true, then resolution fails, the
single reported error is an incompatible combination naming the heap
reclamation flag, and it is the error of the first offending sanity rule
(the capability check when the capability flag is absent, otherwise the
conservative collector check). -/
theorem mercury_c3 :
    ∀ s t, s .reclaimHpOnFailure = true →
      runRules s rulesThroughGc = .ok t → t .conservativeGc = true →
      ∃ other, resolve s =
        .error (.incompatibleCombination ["MR_RECLAIM_HP_ON_FAILURE", other]) := by
  intro s t hrc hpre hcons
  have hr : t .reclaimHpOnFailure = s .reclaimHpOnFailure :=
    runRules_ok_not_touched (by rfl) hpre
  have htr : t .reclaimHpOnFailure = true := hr.trans hrc
  have hcomp : resolve s =
      runRules t (reclaimRules ++ (staticCodeRules ++ (parallelRules ++
        (labelRules ++ (initRules ++ platformRules))))) := by
    unfold resolve
    rw [rules_split_reclaim, runRules_append, hpre]
  simp only [hcomp]
  unfold reclaimRules
  simp only [List.cons_append, List.nil_append]
  have hg1 : (Guard.and (Guard.notSet Flag.conservativeGc)
      (Guard.notSet Flag.nativeGc)).eval t = false := by
    simp [Guard.eval, hcons]
  rw [runRules_impose, hg1, if_neg (by simp), runRules_impose]
  cases hm : t .mightReclaimHpOnFailure with
  | false =>
    have hm' : (Guard.isSet Flag.mightReclaimHpOnFailure).eval t = false := hm
    rw [hm', if_neg (by simp)]
    refine ⟨"MR_MIGHT_RECLAIM_HP_ON_FAILURE", ?_⟩
    have hf : (Guard.and (Guard.isSet Flag.reclaimHpOnFailure)
        (Guard.notSet Flag.mightReclaimHpOnFailure)).eval t = true := by
      simp [Guard.eval, hm, htr]
    rw [runRules_fatal_true hf]
  | true =>
    have hm' : (Guard.isSet Flag.mightReclaimHpOnFailure).eval t = true := hm
    rw [hm', if_pos rfl]
    refine ⟨"MR_CONSERVATIVE_GC", ?_⟩
    have hf1 : (Guard.and (Guard.isSet Flag.reclaimHpOnFailure)
        (Guard.notSet Flag.mightReclaimHpOnFailure)).eval
          (setFlags true [Flag.reclaimHpOnFailure] t) = false := by
      simp [Guard.eval, setFlags, hm]
    rw [runRules_fatal_false hf1]
    have hf2 : (Guard.and (Guard.isSet Flag.reclaimHpOnFailure)
        (Guard.isSet Flag.conservativeGc)).eval
          (setFlags true [Flag.reclaimHpOnFailure] t) = true := by
      simp [Guard.eval, setFlags, hcons]
    rw [runRules_fatal_true hf2]

/-- C3 witness: requesting the category flag together with heap
reclamation on failure yields an incompatible combination error naming
the heap reclamation flag. -/
theorem mercury_c3_witness :
    ∃ other, resolve (ofList [.conservativeGc, .reclaimHpOnFailure]) =
      .error (.incompatibleCombination ["MR_RECLAIM_HP_ON_FAILURE", other]) :=
  mercury_c3 (ofList [.conservativeGc, .reclaimHpOnFailure]) _ rfl rfl rfl

/-- Running the implied-option group computes the pic register flag: the
retraction on the Windows family wins over the implication from the pic
flag, which itself absorbs the compiler facts. -/
theorem implied_picReg {u v : Store}
    (h : runRules u impliedPicRules = .ok v) :
    v .picReg = (if (u .cygwin || u .targetWin32) = true then false
      else (u .picReg || (u .pic || u .gccPic || u .gccPicUpper))) := by
  unfold impliedPicRules at h
  obtain ⟨u1, ha1, h⟩ := runRules_cons_ok h
  obtain ⟨u2, ha2, h⟩ := runRules_cons_ok h
  obtain ⟨u3, ha3, h⟩ := runRules_cons_ok h
  obtain ⟨u4, ha4, h⟩ := runRules_cons_ok h
  rw [runRules_nil, Except.ok.injEq] at h
  have b1 : u1 .pic = u .pic := apply_ok_not_touched (by rfl) ha1
  have b2 : u1 .gccPic = u .gccPic := apply_ok_not_touched (by rfl) ha1
  have b3 : u1 .gccPicUpper = u .gccPicUpper := apply_ok_not_touched (by rfl) ha1
  have b4 : u1 .picReg = u .picReg := apply_ok_not_touched (by rfl) ha1
  have b5 : u1 .cygwin = u .cygwin := apply_ok_not_touched (by rfl) ha1
  have b6 : u1 .targetWin32 = u .targetWin32 := apply_ok_not_touched (by rfl) ha1
  have c1 : u2 .pic = (u1 .pic || (u1 .gccPic || u1 .gccPicUpper)) := by
    simpa [Guard.eval] using impose_ok_flag_value (by rfl) ha2
  have c2 : u2 .picReg = u1 .picReg := apply_ok_not_touched (by rfl) ha2
  have c3 : u2 .cygwin = u1 .cygwin := apply_ok_not_touched (by rfl) ha2
  have c4 : u2 .targetWin32 = u1 .targetWin32 := apply_ok_not_touched (by rfl) ha2
  have d1 : u3 .picReg = (u2 .picReg || u2 .pic) := by
    simpa [Guard.eval] using impose_ok_flag_value (by rfl) ha3
  have d2 : u3 .cygwin = u2 .cygwin := apply_ok_not_touched (by rfl) ha3
  have d3 : u3 .targetWin32 = u2 .targetWin32 := apply_ok_not_touched (by rfl) ha3
  have e1 : u4 .picReg = (!(u3 .cygwin || u3 .targetWin32) && u3 .picReg) := by
    simpa [Guard.eval] using retract_ok_flag_value (by rfl) ha4
  rw [← h, e1, d1, d2, d3, c1, c2, c3, c4, b1, b2, b3, b4, b5, b6]
  cases hw : (u .cygwin || u .targetWin32) <;>
    cases hp : u .pic <;> cases hg1 : u .gccPic <;> cases hg2 : u .gccPicUpper <;>
    simp [hw, hp, hg1, hg2]

/-- C4: on every successful resolution, if the position independent code
fact is present (the derived pic flag requested or either compiler fact
supplied) and no Windows family fact is present then the pic register
flag resolves true, and whenever a Windows family fact is present the pic
register flag resolves false, even if it was supplied in the initial
assignment. -/
theorem mercury_c4 :
    ∀ s r, resolve s = .ok r →
      (((s .pic || s .gccPic || s .gccPicUpper) = true ∧
        (s .cygwin || s .targetWin32) = false) → r .picReg = true) ∧
      ((s .cygwin || s .targetWin32) = true → r .picReg = false) := by
  intro s r h
  unfold resolve at h
  rw [rules_split_pic] at h
  obtain ⟨t0, hA, hB⟩ := runRules_append_ok h
  obtain ⟨v, hImp, hRest⟩ := runRules_append_ok hB
  have p1 : t0 .pic = s .pic := runRules_ok_not_touched (by rfl) hA
  have p2 : t0 .gccPic = s .gccPic := runRules_ok_not_touched (by rfl) hA
  have p3 : t0 .gccPicUpper = s .gccPicUpper := runRules_ok_not_touched (by rfl) hA
  have p4 : t0 .cygwin = s .cygwin := runRules_ok_not_touched (by rfl) hA
  have p5 : t0 .targetWin32 = s .targetWin32 := runRules_ok_not_touched (by rfl) hA
  have p6 : t0 .picReg = s .picReg := runRules_ok_not_touched (by rfl) hA
  have hpr : r .picReg = v .picReg := runRules_ok_not_touched (by rfl) hRest
  have hv := implied_picReg hImp
  rw [hpr, hv, p1, p2, p3, p4, p5, p6]
  constructor
  · rintro ⟨hpf, hwf⟩
    rw [hwf]
    simp [hpf]
  · intro hw
    rw [hw]
    simp

/-- C4 witness: the lowercase compiler pic fact alone resolves the pic
register flag true; an initial pic register request under Cygwin is
retracted to false. -/
theorem mercury_c4_witness :
    (∃ r, resolve (ofList [.gccPic]) = .ok r ∧ r .picReg = true) ∧
    (∃ r, resolve (ofList [.picReg, .cygwin]) = .ok r ∧ r .picReg = false) := by
  constructor
  · obtain ⟨r0, h0⟩ : ∃ r0, resolve (ofList [.gccPic]) = .ok r0 := ⟨_, rfl⟩
    exact ⟨r0, h0, (mercury_c4 _ r0 h0).1 ⟨rfl, rfl⟩⟩
  · obtain ⟨r1, h1⟩ : ∃ r1, resolve (ofList [.picReg, .cygwin]) = .ok r1 := ⟨_, rfl⟩
    exact ⟨r1, h1, (mercury_c4 _ r1 h1).2 rfl⟩

/-- The six low level debugging modes that conflict with high level code
generation, in the order their checks appear in the source. -/
inductive LLDebugMode where
  | lowlevelDebug
  | debugDdBackEnd
  | debugGotos
  | debugLabelNames
  | lowlevelAddrDebug
  | debugLvalRep
deriving DecidableEq

/-- The flag of a low level debugging mode. -/
def LLDebugMode.flag : LLDebugMode → Flag
  | .lowlevelDebug => .lowlevelDebug
  | .debugDdBackEnd => .debugDdBackEnd
  | .debugGotos => .debugGotos
  | .debugLabelNames => .debugLabelNames
  | .lowlevelAddrDebug => .lowlevelAddrDebug
  | .debugLvalRep => .debugLvalRep

/-- The source name of a low level debugging mode. -/
def LLDebugMode.flagName : LLDebugMode → String
  | .lowlevelDebug => "MR_LOWLEVEL_DEBUG"
  | .debugDdBackEnd => "MR_DEBUG_DD_BACK_END"
  | .debugGotos => "MR_DEBUG_GOTOS"
  | .debugLabelNames => "MR_DEBUG_LABEL_NAMES"
  | .lowlevelAddrDebug => "MR_LOWLEVEL_ADDR_DEBUG"
  | .debugLvalRep => "MR_DEBUG_LVAL_REP"

/-- C6: requesting high level code generation together with exactly one of
the six low level debugging modes (and without directly setting the
reserved stack trace flag, which would be rejected first) fails with an
incompatible combination error naming exactly the two flags involved. -/
theorem mercury_c6 :
    ∀ (m : LLDebugMode) (s : Store), s .stackTrace = false →
      s .highlevelCode = true → s (m.flag) = true →
      (∀ m' : LLDebugMode, m' ≠ m → s (m'.flag) = false) →
      resolve s = .error (.incompatibleCombination
        ["MR_HIGHLEVEL_CODE", m.flagName]) := by
  intro m s h0 h1 h2 h3
  unfold resolve
  rw [rules_split_st]
  unfold stackTraceRules
  simp only [List.cons_append, List.nil_append]
  have hg0 : (Guard.isSet Flag.stackTrace).eval s = false := h0
  rw [runRules_fatal_false hg0, runRules_impose]
  generalize hT : (if Guard.eval s
      (Guard.or (Guard.isSet Flag.execTrace) (Guard.isSet Flag.deepProfiling)) = true
    then setFlags true [Flag.stackTrace] s else s) = T
  have tfact : ∀ f : Flag, ([Flag.stackTrace] : List Flag).contains f = false →
      T f = s f := by
    intro f hf
    rw [← hT]
    split
    · exact setFlags_not_contains hf
    · rfl
  have tHL : T Flag.highlevelCode = s Flag.highlevelCode := tfact _ rfl
  have tLL : T Flag.lowlevelDebug = s Flag.lowlevelDebug := tfact _ rfl
  have tDD : T Flag.debugDdBackEnd = s Flag.debugDdBackEnd := tfact _ rfl
  have tDG : T Flag.debugGotos = s Flag.debugGotos := tfact _ rfl
  have tDL : T Flag.debugLabelNames = s Flag.debugLabelNames := tfact _ rfl
  have tLA : T Flag.lowlevelAddrDebug = s Flag.lowlevelAddrDebug := tfact _ rfl
  have tLR : T Flag.debugLvalRep = s Flag.debugLvalRep := tfact _ rfl
  unfold highlevelDebugRules
  simp only [List.cons_append, List.nil_append]
  cases m with
  | lowlevelDebug =>
    have h2x : s Flag.lowlevelDebug = true := h2
    have e1 : (Guard.and (Guard.isSet Flag.highlevelCode)
        (Guard.isSet Flag.lowlevelDebug)).eval T = true := by
      simp [Guard.eval, tHL, tLL, h1, h2x]
    rw [runRules_fatal_true e1]
    rfl
  | debugDdBackEnd =>
    have f1 : s Flag.lowlevelDebug = false := h3 .lowlevelDebug (by intro hx; cases hx)
    have e1 : (Guard.and (Guard.isSet Flag.highlevelCode)
        (Guard.isSet Flag.lowlevelDebug)).eval T = false := by
      simp [Guard.eval, tLL, f1]
    have h2x : s Flag.debugDdBackEnd = true := h2
    have e2 : (Guard.and (Guard.isSet Flag.highlevelCode)
        (Guard.isSet Flag.debugDdBackEnd)).eval T = true := by
      simp [Guard.eval, tHL, tDD, h1, h2x]
    rw [runRules_fatal_false e1, runRules_fatal_true e2]
    rfl
  | debugGotos =>
    have f1 : s Flag.lowlevelDebug = false := h3 .lowlevelDebug (by intro hx; cases hx)
    have f2 : s Flag.debugDdBackEnd = false := h3 .debugDdBackEnd (by intro hx; cases hx)
    have e1 : (Guard.and (Guard.isSet Flag.highlevelCode)
        (Guard.isSet Flag.lowlevelDebug)).eval T = false := by
      simp [Guard.eval, tLL, f1]
    have e2 : (Guard.and (Guard.isSet Flag.highlevelCode)
        (Guard.isSet Flag.debugDdBackEnd)).eval T = false := by
      simp [Guard.eval, tDD, f2]
    have h2x : s Flag.debugGotos = true := h2
    have e3 : (Guard.and (Guard.isSet Flag.highlevelCode)
        (Guard.isSet Flag.debugGotos)).eval T = true := by
      simp [Guard.eval, tHL, tDG, h1, h2x]
    rw [runRules_fatal_false e1, runRules_fatal_false e2, runRules_fatal_true e3]
    rfl
  | debugLabelNames =>
    have f1 : s Flag.lowlevelDebug = false := h3 .lowlevelDebug (by intro hx; cases hx)
    have f2 : s Flag.debugDdBackEnd = false := h3 .debugDdBackEnd (by intro hx; cases hx)
    have f3 : s Flag.debugGotos = false := h3 .debugGotos (by intro hx; cases hx)
    have e1 : (Guard.and (Guard.isSet Flag.highlevelCode)
        (Guard.isSet Flag.lowlevelDebug)).eval T = false := by
      simp [Guard.eval, tLL, f1]
    have e2 : (Guard.and (Guard.isSet Flag.highlevelCode)
        (Guard.isSet Flag.debugDdBackEnd)).eval T = false := by
      simp [Guard.eval, tDD, f2]
    have e3 : (Guard.and (Guard.isSet Flag.highlevelCode)
        (Guard.isSet Flag.debugGotos)).eval T = false := by
      simp [Guard.eval, tDG, f3]
    have h2x : s Flag.debugLabelNames = true := h2
    have e4 : (Guard.and (Guard.isSet Flag.highlevelCode)
        (Guard.isSet Flag.debugLabelNames)).eval T = true := by
      simp [Guard.eval, tHL, tDL, h1, h2x]
    rw [runRules_fatal_false e1, runRules_fatal_false e2, runRules_fatal_false e3,
      runRules_fatal_true e4]
    rfl
  | lowlevelAddrDebug =>
    have f1 : s Flag.lowlevelDebug = false := h3 .lowlevelDebug (by intro hx; cases hx)
    have f2 : s Flag.debugDdBackEnd = false := h3 .debugDdBackEnd (by intro hx; cases hx)
    have f3 : s Flag.debugGotos = false := h3 .debugGotos (by intro hx; cases hx)
    have f4 : s Flag.debugLabelNames = false := h3 .debugLabelNames (by intro hx; cases hx)
    have e1 : (Guard.and (Guard.isSet Flag.highlevelCode)
        (Guard.isSet Flag.lowlevelDebug)).eval T = false := by
      simp [Guard.eval, tLL, f1]
    have e2 : (Guard.and (Guard.isSet Flag.highlevelCode)
        (Guard.isSet Flag.debugDdBackEnd)).eval T = false := by
      simp [Guard.eval, tDD, f2]
    have e3 : (Guard.and (Guard.isSet Flag.highlevelCode)
        (Guard.isSet Flag.debugGotos)).eval T = false := by
      simp [Guard.eval, tDG, f3]
    have e4 : (Guard.and (Guard.isSet Flag.highlevelCode)
        (Guard.isSet Flag.debugLabelNames)).eval T = false := by
      simp [Guard.eval, tDL, f4]
    have h2x : s Flag.lowlevelAddrDebug = true := h2
    have e5 : (Guard.and (Guard.isSet Flag.highlevelCode)
        (Guard.isSet Flag.lowlevelAddrDebug)).eval T = true := by
      simp [Guard.eval, tHL, tLA, h1, h2x]
    rw [runRules_fatal_false e1, runRules_fatal_false e2, runRules_fatal_false e3,
      runRules_fatal_false e4, runRules_fatal_true e5]
    rfl
  | debugLvalRep =>
    have f1 : s Flag.lowlevelDebug = false := h3 .lowlevelDebug (by intro hx; cases hx)
    have f2 : s Flag.debugDdBackEnd = false := h3 .debugDdBackEnd (by intro hx; cases hx)
    have f3 : s Flag.debugGotos = false := h3 .debugGotos (by intro hx; cases hx)
    have f4 : s Flag.debugLabelNames = false := h3 .debugLabelNames (by intro hx; cases hx)
    have f5 : s Flag.lowlevelAddrDebug = false :=
      h3 .lowlevelAddrDebug (by intro hx; cases hx)
    have e1 : (Guard.and (Guard.isSet Flag.highlevelCode)
        (Guard.isSet Flag.lowlevelDebug)).eval T = false := by
      simp [Guard.eval, tLL, f1]
    have e2 : (Guard.and (Guard.isSet Flag.highlevelCode)
        (Guard.isSet Flag.debugDdBackEnd)).eval T = false := by
      simp [Guard.eval, tDD, f2]
    have e3 : (Guard.and (Guard.isSet Flag.highlevelCode)
        (Guard.isSet Flag.debugGotos)).eval T = false := by
      simp [Guard.eval, tDG, f3]
    have e4 : (Guard.and (Guard.isSet Flag.highlevelCode)
        (Guard.isSet Flag.debugLabelNames)).eval T = false := by
      simp [Guard.eval, tDL, f4]
    have e5 : (Guard.and (Guard.isSet Flag.highlevelCode)
        (Guard.isSet Flag.lowlevelAddrDebug)).eval T = false := by
      simp [Guard.eval, tLA, f5]
    have h2x : s Flag.debugLvalRep = true := h2
    have e6 : (Guard.and (Guard.isSet Flag.highlevelCode)
        (Guard.isSet Flag.debugLvalRep)).eval T = true := by
      simp [Guard.eval, tHL, tLR, h1, h2x]
    rw [runRules_fatal_false e1, runRules_fatal_false e2, runRules_fatal_false e3,
      runRules_fatal_false e4, runRules_fatal_false e5, runRules_fatal_true e6]
    rfl

/-- C6 witness: the concrete example of the specification, high level code
with goto debugging. -/
theorem mercury_c6_witness :
    resolve (ofList [.highlevelCode, .debugGotos]) =
      .error (.incompatibleCombination ["MR_HIGHLEVEL_CODE", "MR_DEBUG_GOTOS"]) :=
  mercury_c6 .debugGotos (ofList [.highlevelCode, .debugGotos]) rfl rfl rfl
    (by
      intro m' hm'
      cases m' <;> first | rfl | exact absurd rfl hm')

/-- Every successful resolution defines the static code addresses flag or
the need-initialization-at-start flag: when the static code addresses
guard fails, the initialization rule fires on its negation. -/
theorem resolve_ok_static_or_init {s r : Store} (h : resolve s = .ok r) :
    (r .staticCodeAddresses || r .needInitializationAtStart) = true := by
  unfold resolve at h
  rw [rules_split_static] at h
  obtain ⟨t, hA, hB⟩ := runRules_append_ok h
  obtain ⟨w, hS0, hC0⟩ := runRules_append_ok hB
  unfold staticCodeRules at hS0
  obtain ⟨t1, hf, hS1⟩ := runRules_cons_ok hS0
  obtain ⟨w1, hi, hS2⟩ := runRules_cons_ok hS1
  rw [runRules_nil, Except.ok.injEq] at hS2
  obtain ⟨hgf, ht1⟩ := fatal_apply_ok hf
  have hw1 : w1 .staticCodeAddresses =
      (t .staticCodeAddresses || (!t .useGccNonlocalGotos || t .useAsmLabels)) := by
    rw [ht1] at hi
    simpa [Guard.eval] using
      @impose_ok_flag_value _ [Flag.staticCodeAddresses] _ _
        Flag.staticCodeAddresses rfl hi
  have hts : t .staticCodeAddresses = false := by
    simpa [Guard.eval] using hgf
  cases hguard : (!t .useGccNonlocalGotos || t .useAsmLabels) with
  | true =>
    have hrs : r .staticCodeAddresses = w .staticCodeAddresses :=
      runRules_ok_not_touched (by rfl) hC0
    rw [hrs, ← hS2, hw1, hts, hguard]
    simp
  | false =>
    have hws : w .staticCodeAddresses = false := by
      rw [← hS2, hw1, hts, hguard]
      rfl
    obtain ⟨x, hPar, hC1⟩ := runRules_append_ok hC0
    obtain ⟨y, hLab, hC2⟩ := runRules_append_ok hC1
    obtain ⟨z, hInit0, hPlat⟩ := runRules_append_ok hC2
    have hx1 : x .staticCodeAddresses = w .staticCodeAddresses :=
      runRules_ok_not_touched (by rfl) hPar
    have hy1 : y .staticCodeAddresses = x .staticCodeAddresses :=
      runRules_ok_not_touched (by rfl) hLab
    unfold initRules at hInit0
    obtain ⟨z1, hf1, hInit1⟩ := runRules_cons_ok hInit0
    obtain ⟨z2, hi1, hInit2⟩ := runRules_cons_ok hInit1
    obtain ⟨z3, hf2, hInit3⟩ := runRules_cons_ok hInit2
    obtain ⟨z4, hi2, hInit4⟩ := runRules_cons_ok hInit3
    rw [runRules_nil, Except.ok.injEq] at hInit4
    obtain ⟨hg1, hz1⟩ := fatal_apply_ok hf1
    have hz2 : z2 .needInitializationAtStart =
        (y .needInitializationAtStart ||
          ((!y .staticCodeAddresses) || (y .mprofProfileCalls ||
            (y .mprofProfileTime || y .debugLabelNames)))) := by
      rw [hz1] at hi1
      simpa [Guard.eval] using
        @impose_ok_flag_value _ [Flag.needInitializationAtStart] _ _
          Flag.needInitializationAtStart rfl hi1
    have hys : y .staticCodeAddresses = false := by rw [hy1, hx1, hws]
    have hz2t : z2 .needInitializationAtStart = true := by
      rw [hz2, hys]
      simp
    obtain ⟨hg2, hz3⟩ := fatal_apply_ok hf2
    have hz4 : z4 .needInitializationAtStart = z3 .needInitializationAtStart :=
      apply_ok_not_touched (by rfl) hi2
    have hr1 : r .needInitializationAtStart = z .needInitializationAtStart :=
      runRules_ok_not_touched (by rfl) hPlat
    rw [hr1, ← hInit4, hz4, hz3, hz2t]
    simp

/-- Any store in which the static code addresses flag or the
need-initialization-at-start flag is defined cannot be resolved again:
one of the reservation rules for these derived flags (or an earlier
fatal rule) fires. -/
theorem resolve_fails_on_static_or_init {r : Store}
    (h : (r .staticCodeAddresses || r .needInitializationAtStart) = true) :
    ∃ e, resolve r = .error e := by
  cases hx : resolve r with
  | error e => exact ⟨e, rfl⟩
  | ok r' =>
    exfalso
    have h1 := hx
    unfold resolve at h1
    rw [rules_split_static] at h1
    obtain ⟨t, hA, hB⟩ := runRules_append_ok h1
    obtain ⟨w, hS, _⟩ := runRules_append_ok hB
    unfold staticCodeRules at hS
    obtain ⟨t1, hf, _⟩ := runRules_cons_ok hS
    obtain ⟨hgf, _⟩ := fatal_apply_ok hf
    have hts : t .staticCodeAddresses = r .staticCodeAddresses :=
      runRules_ok_not_touched (by rfl) hA
    have hrs : r .staticCodeAddresses = false := by
      rw [← hts]
      simpa [Guard.eval] using hgf
    have hni : r .needInitializationAtStart = true := by simpa [hrs] using h
    have h2 := hx
    unfold resolve at h2
    rw [rules_split_init] at h2
    obtain ⟨z, hP, hQ⟩ := runRules_append_ok h2
    have hzn : z .needInitializationAtStart = r .needInitializationAtStart :=
      runRules_ok_not_touched (by rfl) hP
    unfold initRules at hQ
    obtain ⟨z1, hf1, _⟩ := runRules_cons_ok hQ
    obtain ⟨hg1, _⟩ := fatal_apply_ok hf1
    have hzf : z .needInitializationAtStart = false := by
      simpa [Guard.eval] using hg1
    rw [hzn, hni] at hzf
    cases hzf

/-- C1 amended: resolution is not idempotent; feeding any resolved
configuration back in as the initial assignment (same platform facts)
always fails with a fatal error, because every resolved configuration
contains a derived flag guarded by a reservation rule (the static code
addresses flag or the need-initialization-at-start flag). -/
theorem mercury_c1_amended :
    ∀ s r : Store, resolve s = .ok r → ∃ e, resolve r = .error e := by
  intro s r h
  exact resolve_fails_on_static_or_init (resolve_ok_static_or_init h)

/-- The resolved configuration of the empty initial assignment. -/
def emptyResolved : Store :=
  match resolve emptyStore with
  | .ok r => r
  | .error _ => emptyStore

/-- C1 witness: re-resolving the resolved configuration of the empty
initial assignment fails. -/
theorem mercury_c1_witness : ∃ e, resolve emptyResolved = .error e :=
  mercury_c1_amended emptyStore emptyResolved (by rfl)

end Mercury
